import Mathlib

/-
Verification development for the VulkanSceneGraph per-frame submission core:
`src/vsg/app/RecordAndSubmitTask.cpp` (frame-index ring, start/finish phases,
`vsg::updateTasks` bin reconciliation) and `src/vsg/state/ViewDependentState.cpp`
(light aggregation and packing).

The C++ code is shallowly embedded: `size_t`/`uint32_t` values become `Nat`,
`int32_t` bin numbers become `Int`, `std::vector` fields become `List`, and the
opaque Vulkan collaborators (fence, queue, transfer tasks) are represented by
the observable inputs/outputs the code exchanges with them.
-/

/- ===================== Vulkan result codes ===================== -/

/-- Model of `VkResult`: `success` is `VK_SUCCESS`; every other status (error or
timeout) is carried as an integer code distinct from success. -/
inductive VkResult where
  | success : VkResult
  | error : Int → VkResult
deriving DecidableEq

/- ===================== Fence model ===================== -/

/-- Observable behaviour of a `vsg::Fence` as used by `RecordAndSubmitTask`:
whether `hasDependencies()` reports outstanding work, and the status that
`wait(timeout)` would return. -/
structure Fence where
  hasDependencies : Bool
  waitResult : VkResult
deriving DecidableEq

/-- A freshly constructed fence (`Fence::create(device)`): no dependencies yet. -/
def Fence.fresh : Fence :=
  { hasDependencies := false, waitResult := VkResult.success }

/- ===================== RecordAndSubmitTask ring ===================== -/

/-- The fields of `vsg::RecordAndSubmitTask` relevant to the frame-index ring:
`_currentFrameIndex`, `_indices` and `_fences` (transfer tasks, command graphs
and instrumentation do not feed back into the ring). -/
structure RecordAndSubmitTask where
  _currentFrameIndex : Nat
  _indices : List Nat
  _fences : List Fence

/-- The constructor `RecordAndSubmitTask(Device*, uint32_t numBuffers)`:
`_currentFrameIndex = numBuffers` (sentinel for "unset"), `_indices` holds
`numBuffers` copies of the sentinel `numBuffers`, and `_fences` holds
`numBuffers` freshly created fences. -/
def RecordAndSubmitTask.create (numBuffers : Nat) : RecordAndSubmitTask :=
  { _currentFrameIndex := numBuffers
    _indices := List.replicate numBuffers numBuffers
    _fences := List.replicate numBuffers Fence.fresh }

/-- The downward copy loop in `advance()`:
`for (size_t i = _indices.size() - 1; i >= 1; --i) _indices[i] = _indices[i-1];`.
Because the loop runs from high to low indices, each write reads the original
value of slot `i - 1`, so the result keeps slot 0 and shifts every element one
slot to the right, dropping the last: `[a, b, c] ↦ [a, a, b]`. -/
def shiftIndicesOnce (l : List Nat) : List Nat :=
  match l with
  | [] => []
  | x :: xs => x :: (x :: xs).dropLast

/-- The wrap-around computation inside `advance()`:
`++_currentFrameIndex; if (_currentFrameIndex > _indices.size() - 1) _currentFrameIndex = 0;`. -/
def nextFrameIndex (currentFrameIndex n : Nat) : Nat :=
  if currentFrameIndex + 1 > n - 1 then 0 else currentFrameIndex + 1

/-- `RecordAndSubmitTask::advance()`. On the first call (`_currentFrameIndex >=
_indices.size()`) the current slot becomes 0 and only `_indices[0]` is written;
on later calls the current slot is incremented modulo the ring size, the index
history is shifted one slot to the right, and the new current slot is written
into `_indices[0]`. The trailing `earlyTransferTask->advance()` /
`lateTransferTask->advance()` calls do not touch the modelled fields. -/
def RecordAndSubmitTask.advance (t : RecordAndSubmitTask) : RecordAndSubmitTask :=
  if t._currentFrameIndex ≥ t._indices.length then
    { t with _currentFrameIndex := 0, _indices := t._indices.set 0 0 }
  else
    { t with
      _currentFrameIndex := nextFrameIndex t._currentFrameIndex t._indices.length
      _indices :=
        (shiftIndicesOnce t._indices).set 0
          (nextFrameIndex t._currentFrameIndex t._indices.length) }

/-- `k` successive calls of `advance()`. -/
def RecordAndSubmitTask.advanceN : Nat → RecordAndSubmitTask → RecordAndSubmitTask
  | 0, t => t
  | k + 1, t => (RecordAndSubmitTask.advanceN k t).advance

/-- `RecordAndSubmitTask::index(size_t relativeFrameIndex)`:
`relativeFrameIndex < _indices.size() ? _indices[relativeFrameIndex] : _indices.size()`. -/
def RecordAndSubmitTask.index (t : RecordAndSubmitTask) (relativeFrameIndex : Nat) : Nat :=
  if relativeFrameIndex < t._indices.length then t._indices.getD relativeFrameIndex 0
  else t._indices.length

/-- `RecordAndSubmitTask::fence(size_t relativeFrameIndex)`:
`size_t i = index(relativeFrameIndex); return i < _fences.size() ? _fences[i].get() : nullptr;`.
`none` models the `nullptr` return. -/
def RecordAndSubmitTask.fence (t : RecordAndSubmitTask) (relativeFrameIndex : Nat) :
    Option Fence :=
  t._fences[t.index relativeFrameIndex]?

/- ===================== Ring lemmas ===================== -/

lemma shiftIndicesOnce_length (l : List Nat) : (shiftIndicesOnce l).length = l.length := by
  cases l with
  | nil => rfl
  | cons x xs => simp [shiftIndicesOnce]

lemma RecordAndSubmitTask.advance_length (t : RecordAndSubmitTask) :
    (t.advance)._indices.length = t._indices.length := by
  unfold RecordAndSubmitTask.advance
  split
  · simp
  · simp [shiftIndicesOnce_length]

lemma RecordAndSubmitTask.advanceN_length (k : Nat) (t : RecordAndSubmitTask) :
    (RecordAndSubmitTask.advanceN k t)._indices.length = t._indices.length := by
  induction k with
  | zero => rfl
  | succ k ih =>
    show ((RecordAndSubmitTask.advanceN k t).advance)._indices.length = t._indices.length
    rw [RecordAndSubmitTask.advance_length, ih]

lemma RecordAndSubmitTask.create_indices_length (N : Nat) :
    (RecordAndSubmitTask.create N)._indices.length = N := by
  simp [RecordAndSubmitTask.create]

/-- After any `advance()`, slot 0 of the ring holds the new current frame index
(both branches of `advance` end with `_indices[0] = _currentFrameIndex`). -/
lemma RecordAndSubmitTask.advance_head (t : RecordAndSubmitTask)
    (h : 1 ≤ t._indices.length) :
    (t.advance)._indices.getD 0 0 = (t.advance)._currentFrameIndex := by
  unfold RecordAndSubmitTask.advance
  split
  · cases hl : t._indices with
    | nil => rw [hl] at h; simp at h
    | cons x xs => simp [hl]
  · cases hl : t._indices with
    | nil => rw [hl] at h; simp at h
    | cons x xs => simp [hl, shiftIndicesOnce]

lemma nextFrameIndex_mod (N k : Nat) (hN : 1 ≤ N) :
    nextFrameIndex (k % N) N = (k + 1) % N := by
  have hm : k % N < N := Nat.mod_lt k hN
  have hrw : (k + 1) % N = (k % N + 1) % N := by
    have h2 : N * (k / N) + k % N = k := Nat.div_add_mod k N
    calc (k + 1) % N = (N * (k / N) + (k % N + 1)) % N := by rw [← Nat.add_assoc, h2]
      _ = (k % N + 1) % N := Nat.mul_add_mod _ _ _
  unfold nextFrameIndex
  by_cases hcase : k % N + 1 = N
  · rw [if_pos (by omega), hrw, hcase, Nat.mod_self]
  · have hlt : k % N + 1 < N := by omega
    rw [if_neg (by omega), hrw, Nat.mod_eq_of_lt hlt]

lemma RecordAndSubmitTask.advance_cfi_of_lt (t : RecordAndSubmitTask)
    (h : t._currentFrameIndex < t._indices.length) :
    (t.advance)._currentFrameIndex = nextFrameIndex t._currentFrameIndex t._indices.length := by
  unfold RecordAndSubmitTask.advance
  rw [if_neg (by omega)]

/-- After the `(k+1)`-st `advance()` on a freshly constructed task with `N ≥ 1`
buffers, `_currentFrameIndex = k % N`. -/
lemma RecordAndSubmitTask.advanceN_cfi (N : Nat) (hN : 1 ≤ N) (k : Nat) :
    (RecordAndSubmitTask.advanceN (k + 1) (RecordAndSubmitTask.create N))._currentFrameIndex
      = k % N := by
  induction k with
  | zero =>
    show ((RecordAndSubmitTask.create N).advance)._currentFrameIndex = 0 % N
    unfold RecordAndSubmitTask.advance
    rw [if_pos (by simp [RecordAndSubmitTask.create])]
    simp
  | succ k ih =>
    show ((RecordAndSubmitTask.advanceN (k + 1) (RecordAndSubmitTask.create N)).advance)._currentFrameIndex
      = (k + 1) % N
    have hlen : (RecordAndSubmitTask.advanceN (k + 1) (RecordAndSubmitTask.create N))._indices.length = N := by
      rw [RecordAndSubmitTask.advanceN_length, RecordAndSubmitTask.create_indices_length]
    have hlt : (RecordAndSubmitTask.advanceN (k + 1) (RecordAndSubmitTask.create N))._currentFrameIndex
        < (RecordAndSubmitTask.advanceN (k + 1) (RecordAndSubmitTask.create N))._indices.length := by
      rw [ih, hlen]; exact Nat.mod_lt _ hN
    rw [RecordAndSubmitTask.advance_cfi_of_lt _ hlt, ih, hlen, nextFrameIndex_mod N k hN]

/-- Claim C1: for every ring size `N ≥ 1`, after the `k`-th `advance()` call
(`k ≥ 1`) on a freshly constructed `RecordAndSubmitTask`, `index(0)` equals
`(k - 1) mod N`, and `index(j)` returns the sentinel `N` for every `j ≥ N`;
in particular with `N = 3`, after 5 `advance()` calls `index(0) = 1`,
`index(1) = 0` and `index(2) = 2`. -/
theorem recordAndSubmitTask_ring_index_spec (N k : Nat) (hN : 1 ≤ N) (hk : 1 ≤ k) :
    (RecordAndSubmitTask.advanceN k (RecordAndSubmitTask.create N)).index 0 = (k - 1) % N ∧
    (∀ j, N ≤ j →
      (RecordAndSubmitTask.advanceN k (RecordAndSubmitTask.create N)).index j = N) ∧
    ((RecordAndSubmitTask.advanceN 5 (RecordAndSubmitTask.create 3)).index 0 = 1 ∧
     (RecordAndSubmitTask.advanceN 5 (RecordAndSubmitTask.create 3)).index 1 = 0 ∧
     (RecordAndSubmitTask.advanceN 5 (RecordAndSubmitTask.create 3)).index 2 = 2) := by
  obtain ⟨k', rfl⟩ : ∃ k', k = k' + 1 := ⟨k - 1, by omega⟩
  have hlen : (RecordAndSubmitTask.advanceN (k' + 1) (RecordAndSubmitTask.create N))._indices.length = N := by
    rw [RecordAndSubmitTask.advanceN_length, RecordAndSubmitTask.create_indices_length]
  refine ⟨?_, ?_, by decide⟩
  · have hlen' : 1 ≤ (RecordAndSubmitTask.advanceN k' (RecordAndSubmitTask.create N))._indices.length := by
      rw [RecordAndSubmitTask.advanceN_length, RecordAndSubmitTask.create_indices_length]; omega
    have hhead := RecordAndSubmitTask.advance_head _ hlen'
    have hcfi := RecordAndSubmitTask.advanceN_cfi N hN k'
    unfold RecordAndSubmitTask.index
    rw [if_pos (by omega)]
    show ((RecordAndSubmitTask.advanceN k' (RecordAndSubmitTask.create N)).advance)._indices.getD 0 0 = (k' + 1 - 1) % N
    rw [hhead]
    exact hcfi
  · intro j hj
    unfold RecordAndSubmitTask.index
    rw [if_neg (by omega), hlen]

/-- Witness for C1 at `N = 3`, `k = 5`. -/
theorem recordAndSubmitTask_ring_index_spec_witness :
    (RecordAndSubmitTask.advanceN 5 (RecordAndSubmitTask.create 3)).index 0 = (5 - 1) % 3 :=
  (recordAndSubmitTask_ring_index_spec 3 5 (by decide) (by decide)).1

/- ===================== start() phase ===================== -/

/-- The observable effects of `RecordAndSubmitTask::start()` on its fence:
the returned `VkResult`, the timeout passed to `wait` (or `none` when `wait`
was never called), and whether `resetFenceAndDependencies()` was called. -/
structure StartEffects where
  result : VkResult
  waitTimeout : Option Nat
  resetCalled : Bool
deriving DecidableEq

/-- `RecordAndSubmitTask::start()` acting on the current fence. From the source:
if the fence `hasDependencies()`, `wait` is called with the hardcoded timeout
`std::numeric_limits<uint64_t>::max() = 2^64 - 1`; a failing wait is returned
immediately without resetting, a successful one is followed by
`resetFenceAndDependencies()`; otherwise `VK_SUCCESS` is returned immediately.
The two leading statements clearing the transfer tasks' completion semaphores
do not touch the fence. -/
def RecordAndSubmitTask.start (current_fence : Fence) : StartEffects :=
  if current_fence.hasDependencies then
    if current_fence.waitResult = VkResult.success then
      { result := VkResult.success, waitTimeout := some (2 ^ 64 - 1), resetCalled := true }
    else
      { result := current_fence.waitResult, waitTimeout := some (2 ^ 64 - 1), resetCalled := false }
  else
    { result := VkResult.success, waitTimeout := none, resetCalled := false }

/-- `start()` as it acts on a whole task: `auto current_fence = fence();` is
dereferenced without a null check. `none` models the null-pointer dereference
that occurs when `fence(0)` returned `nullptr`. -/
def RecordAndSubmitTask.startFromTask (t : RecordAndSubmitTask) : Option StartEffects :=
  (t.fence 0).map RecordAndSubmitTask.start

/-- Claim C4: when the current fence reports `hasDependencies() == false`,
`start()` does not call `wait` or `resetFenceAndDependencies` and returns
`VK_SUCCESS` immediately. -/
theorem start_no_dependencies_returns_success (f : Fence)
    (h : f.hasDependencies = false) :
    RecordAndSubmitTask.start f =
      { result := VkResult.success, waitTimeout := none, resetCalled := false } := by
  simp [RecordAndSubmitTask.start, h]

/-- Witness for C4 on a freshly created fence. -/
theorem start_no_dependencies_returns_success_witness :
    RecordAndSubmitTask.start Fence.fresh =
      { result := VkResult.success, waitTimeout := none, resetCalled := false } :=
  start_no_dependencies_returns_success Fence.fresh rfl

/-- Counterexample to claim C6 as stated: the timeout passed to the fence wait
in `start()` is not an explicit parameter chosen by the caller — `start()` takes
no timeout argument, and the wait is always invoked with the hardcoded value
`2^64 - 1` (`std::numeric_limits<uint64_t>::max()`, the `VkResult`-level
convention for an effectively infinite wait), here shown at a concrete fence. -/
theorem start_wait_timeout_counterexample :
    (RecordAndSubmitTask.start { hasDependencies := true, waitResult := VkResult.success }).waitTimeout
      = some (2 ^ 64 - 1) ∧ (2 ^ 64 - 1 : Nat) = 18446744073709551615 := by
  exact ⟨rfl, by norm_num⟩

/-- Claim C6 as amended: whenever `start()` waits on the fence, it does so with
the fixed, hardcoded timeout `2^64 - 1` nanoseconds (`UINT64_MAX`, an
effectively unbounded wait); the caller has no timeout parameter. -/
theorem start_wait_timeout_hardcoded (f : Fence) (h : f.hasDependencies = true) :
    (RecordAndSubmitTask.start f).waitTimeout = some (2 ^ 64 - 1) := by
  by_cases hw : f.waitResult = VkResult.success
  · simp [RecordAndSubmitTask.start, h, hw]
  · simp [RecordAndSubmitTask.start, h, hw]

/-- Witness for amended C6 on a fence with dependencies whose wait fails. -/
theorem start_wait_timeout_hardcoded_witness :
    (RecordAndSubmitTask.start { hasDependencies := true, waitResult := VkResult.error (-4) }).waitTimeout
      = some (2 ^ 64 - 1) :=
  start_wait_timeout_hardcoded { hasDependencies := true, waitResult := VkResult.error (-4) } rfl

/- ===================== finish() phase ===================== -/

/-- The observable effects of `RecordAndSubmitTask::finish()`: the returned
`VkResult`, whether `queue->submit` was invoked, and the duration of the
`std::this_thread::sleep_for` call if one was performed. -/
structure FinishEffects where
  result : VkResult
  queueSubmitCalled : Bool
  sleptMilliseconds : Option Nat
deriving DecidableEq

/-- The tail of `finish()` after the late-transfer step: if the recorded
command buffer collection is empty, sleep for 16 milliseconds and return
`VK_SUCCESS` without submitting; otherwise build the submission and return
whatever `queue->submit` reports. -/
def finishAfterLateTransfer (recordedEmpty : Bool) (queueSubmitResult : VkResult) :
    FinishEffects :=
  if recordedEmpty then
    { result := VkResult.success, queueSubmitCalled := false, sleptMilliseconds := some 16 }
  else
    { result := queueSubmitResult, queueSubmitCalled := true, sleptMilliseconds := none }

/-- `RecordAndSubmitTask::finish(recordedCommandBuffers)`.
`lateTransferResult` is the status returned by
`lateTransferTask->transferDynamicData()` (`none` when there is no
`lateTransferTask`); a failing late transfer is returned immediately, before
the empty-collection check. `recordedEmpty` is `recordedCommandBuffers->empty()`
and `queueSubmitResult` is what `queue->submit` would report. -/
def RecordAndSubmitTask.finish (lateTransferResult : Option VkResult)
    (recordedEmpty : Bool) (queueSubmitResult : VkResult) : FinishEffects :=
  match lateTransferResult with
  | none => finishAfterLateTransfer recordedEmpty queueSubmitResult
  | some r =>
    if r = VkResult.success then finishAfterLateTransfer recordedEmpty queueSubmitResult
    else { result := r, queueSubmitCalled := false, sleptMilliseconds := none }

/-- Counterexample to claim C3 as stated: when the recorded command buffer
collection is empty but `lateTransferTask->transferDynamicData()` fails,
`finish()` returns that failure (not success) and performs no sleep — the
late-transfer check precedes the empty-collection check. -/
theorem finish_empty_counterexample :
    (RecordAndSubmitTask.finish (some (VkResult.error (-4))) true VkResult.success).result
      ≠ VkResult.success ∧
    (RecordAndSubmitTask.finish (some (VkResult.error (-4))) true VkResult.success).sleptMilliseconds
      = none := by
  decide

/-- Claim C3 as amended: if the recorded command buffer collection is empty and
the late transfer step (when present) succeeded, `finish()` never invokes the
queue's submit operation, sleeps 16 milliseconds, and returns `VK_SUCCESS`. -/
theorem finish_empty_is_idle_success (late : Option VkResult) (q : VkResult)
    (h : late = none ∨ late = some VkResult.success) :
    RecordAndSubmitTask.finish late true q =
      { result := VkResult.success, queueSubmitCalled := false, sleptMilliseconds := some 16 } := by
  rcases h with rfl | rfl
  · rfl
  · rfl

/-- Witness for amended C3: no late transfer task, queue would report an error,
yet the empty frame is an idle success with no submit. -/
theorem finish_empty_is_idle_success_witness :
    RecordAndSubmitTask.finish none true (VkResult.error 7) =
      { result := VkResult.success, queueSubmitCalled := false, sleptMilliseconds := some 16 } :=
  finish_empty_is_idle_success none (VkResult.error 7) (Or.inl rfl)

/- ===================== C10: fence lookup before the first advance ===================== -/

lemma getD_replicate_of_lt {α : Type} (a d : α) (n k : Nat) (h : k < n) :
    (List.replicate n a).getD k d = a := by
  induction n generalizing k with
  | zero => omega
  | succ n ih =>
    cases k with
    | zero => simp [List.replicate_succ]
    | succ k =>
      rw [List.replicate_succ, List.getD_cons_succ]
      exact ih k (by omega)

lemma RecordAndSubmitTask.create_index (N k : Nat) :
    (RecordAndSubmitTask.create N).index k = N := by
  unfold RecordAndSubmitTask.index
  rw [RecordAndSubmitTask.create_indices_length]
  split
  · exact getD_replicate_of_lt N 0 N k (by assumption)
  · rfl

lemma RecordAndSubmitTask.create_fence_none (N k : Nat) :
    (RecordAndSubmitTask.create N).fence k = none := by
  unfold RecordAndSubmitTask.fence
  rw [RecordAndSubmitTask.create_index]
  apply List.getElem?_eq_none
  simp [RecordAndSubmitTask.create]

lemma RecordAndSubmitTask.advance_create_fence_some (N : Nat) (hN : 1 ≤ N) :
    ((RecordAndSubmitTask.create N).advance).fence 0 = some Fence.fresh := by
  obtain ⟨n, rfl⟩ : ∃ n, N = n + 1 := ⟨N - 1, by omega⟩
  unfold RecordAndSubmitTask.advance
  rw [if_pos (by simp [RecordAndSubmitTask.create])]
  unfold RecordAndSubmitTask.fence RecordAndSubmitTask.index
  simp [RecordAndSubmitTask.create, List.replicate_succ]

/-- Claim C10: before the first `advance()` every slot of the index ring holds
the sentinel `N`, so `index(k) = N` and `fence(k)` returns `nullptr` for every
`k`; `start()` dereferences `fence()` without a null check (`none` marks the
null-pointer dereference), so it requires at least one prior `advance()`, and
after one `advance()` the lookup succeeds. -/
theorem fence_null_before_first_advance (N : Nat) (hN : 1 ≤ N) :
    (∀ k, (RecordAndSubmitTask.create N).index k = N) ∧
    (∀ k, (RecordAndSubmitTask.create N).fence k = none) ∧
    (RecordAndSubmitTask.create N).startFromTask = none ∧
    ((RecordAndSubmitTask.create N).advance).fence 0 = some Fence.fresh ∧
    (((RecordAndSubmitTask.create N).advance).startFromTask).isSome = true := by
  refine ⟨fun k => RecordAndSubmitTask.create_index N k,
          fun k => RecordAndSubmitTask.create_fence_none N k, ?_, ?_, ?_⟩
  · unfold RecordAndSubmitTask.startFromTask
    rw [RecordAndSubmitTask.create_fence_none]
    rfl
  · exact RecordAndSubmitTask.advance_create_fence_some N hN
  · unfold RecordAndSubmitTask.startFromTask
    rw [RecordAndSubmitTask.advance_create_fence_some N hN]
    rfl

/-- Witness for C10 at `N = 3`. -/
theorem fence_null_before_first_advance_witness :
    (RecordAndSubmitTask.create 3).startFromTask = none ∧
    (((RecordAndSubmitTask.create 3).advance).startFromTask).isSome = true :=
  ⟨(fence_null_before_first_advance 3 (by decide)).2.2.1,
   (fence_null_before_first_advance 3 (by decide)).2.2.2.2⟩

/- ===================== vsg::updateTasks — bin reconciliation ===================== -/

/-- `vsg::Bin::SortOrder`. -/
inductive SortOrder where
  | ASCENDING : SortOrder
  | NO_SORT : SortOrder
  | DESCENDING : SortOrder
deriving DecidableEq

/-- A `vsg::Bin` as created by `updateTasks`: its bin number and sort order. -/
structure Bin where
  binNumber : Int
  sortOrder : SortOrder
deriving DecidableEq

/-- The sort-order selection in `updateTasks`:
`(binNumber < 0) ? Bin::ASCENDING : ((binNumber == 0) ? Bin::NO_SORT : Bin::DESCENDING)`. -/
def binSortOrderFor (binNumber : Int) : SortOrder :=
  if binNumber < 0 then SortOrder.ASCENDING
  else if binNumber = 0 then SortOrder.NO_SORT
  else SortOrder.DESCENDING

/-- The body of the inner loop of `updateTasks` for one `binNumber`: scan
`view->bins` for a matching bin number and push a new bin only when none
matched. -/
def addBinIfMissing (bins : List Bin) (binNumber : Int) : List Bin :=
  if bins.any fun bin => bin.binNumber == binNumber then bins
  else bins ++ [{ binNumber := binNumber, sortOrder := binSortOrderFor binNumber }]

/-- The "handle any new Bin needs" loop of `vsg::updateTasks` for one view:
fold the loop body over that view's `binDetails.indices`. -/
def updateViewBins (bins : List Bin) (indices : List Int) : List Bin :=
  indices.foldl addBinIfMissing bins

/-- The per-view outer loop of the bin-reconciliation phase of
`vsg::updateTasks`: each `(view->bins, binDetails.indices)` entry of
`compileResult.views` is processed independently by `updateViewBins`. -/
def updateTasksBins (views : List (List Bin × List Int)) : List (List Bin) :=
  views.map fun v => updateViewBins v.1 v.2

lemma mem_addBinIfMissing (bins : List Bin) (n : Int) (b : Bin) (h : b ∈ bins) :
    b ∈ addBinIfMissing bins n := by
  unfold addBinIfMissing
  split
  · exact h
  · exact List.mem_append_left _ h

lemma mem_updateViewBins (indices : List Int) :
    ∀ bins b, b ∈ bins → b ∈ updateViewBins bins indices := by
  induction indices with
  | nil => intro bins b h; exact h
  | cons m rest ih =>
    intro bins b h
    exact ih (addBinIfMissing bins m) b (mem_addBinIfMissing bins m b h)

lemma exists_bin_updateViewBins (indices : List Int) :
    ∀ bins n, n ∈ indices → ∃ b ∈ updateViewBins bins indices, b.binNumber = n := by
  induction indices with
  | nil => intro _ _ h; cases h
  | cons m rest ih =>
    intro bins n h
    rcases List.mem_cons.mp h with rfl | hrest
    · by_cases hany : (bins.any fun bin => bin.binNumber == n) = true
      · rcases List.any_eq_true.mp hany with ⟨b, hb, hbn⟩
        exact ⟨b, mem_updateViewBins rest (addBinIfMissing bins n) b
                (mem_addBinIfMissing bins n b hb), by simpa using hbn⟩
      · have hb : ({ binNumber := n, sortOrder := binSortOrderFor n } : Bin)
            ∈ addBinIfMissing bins n := by
          unfold addBinIfMissing
          rw [if_neg hany]
          exact List.mem_append_right _ (by simp)
        exact ⟨_, mem_updateViewBins rest (addBinIfMissing bins n) _ hb, rfl⟩
    · exact ih (addBinIfMissing bins m) n hrest

lemma created_bin_mem_updateViewBins (indices : List Int) :
    ∀ bins n, (∀ b ∈ bins, b.binNumber ≠ n) → n ∈ indices →
      ({ binNumber := n, sortOrder := binSortOrderFor n } : Bin) ∈ updateViewBins bins indices := by
  induction indices with
  | nil => intro _ _ _ h; cases h
  | cons m rest ih =>
    intro bins n hnone h
    by_cases hmn : m = n
    · subst hmn
      have hany : ¬((bins.any fun bin => bin.binNumber == m) = true) := by
        rw [List.any_eq_true]
        rintro ⟨b, hb, hbe⟩
        exact hnone b hb (by simpa using hbe)
      have hb : ({ binNumber := m, sortOrder := binSortOrderFor m } : Bin)
          ∈ addBinIfMissing bins m := by
        unfold addBinIfMissing
        rw [if_neg hany]
        exact List.mem_append_right _ (by simp)
      exact mem_updateViewBins rest (addBinIfMissing bins m) _ hb
    · have hrest : n ∈ rest := by
        rcases List.mem_cons.mp h with h1 | h2
        · exact absurd h1.symm hmn
        · exact h2
      have hnone' : ∀ b ∈ addBinIfMissing bins m, b.binNumber ≠ n := by
        intro b hb
        unfold addBinIfMissing at hb
        split at hb
        · exact hnone b hb
        · rcases List.mem_append.mp hb with h1 | h2
          · exact hnone b h1
          · have hbm : b = { binNumber := m, sortOrder := binSortOrderFor m } := by
              simpa using h2
            rw [hbm]
            exact hmn
      exact ih (addBinIfMissing bins m) n hnone' hrest

lemma countP_updateViewBins (indices : List Int) :
    ∀ bins n, (∃ b ∈ bins, b.binNumber = n) →
      (updateViewBins bins indices).countP (fun b => b.binNumber == n)
        = bins.countP (fun b => b.binNumber == n) := by
  induction indices with
  | nil => intro _ _ _; rfl
  | cons m rest ih =>
    intro bins n hex
    by_cases hany : (bins.any fun bin => bin.binNumber == m) = true
    · have hstep : addBinIfMissing bins m = bins := by
        unfold addBinIfMissing
        rw [if_pos hany]
      show (updateViewBins (addBinIfMissing bins m) rest).countP _ = _
      rw [hstep]
      exact ih bins n hex
    · have hmn : m ≠ n := by
        rintro rfl
        rcases hex with ⟨b, hb, hbn⟩
        exact hany (List.any_eq_true.mpr ⟨b, hb, by simpa using hbn⟩)
      have hstep : addBinIfMissing bins m
          = bins ++ [{ binNumber := m, sortOrder := binSortOrderFor m }] := by
        unfold addBinIfMissing
        rw [if_neg hany]
      show (updateViewBins (addBinIfMissing bins m) rest).countP _ = _
      rw [hstep]
      have hex' : ∃ b ∈ bins ++ [{ binNumber := m, sortOrder := binSortOrderFor m }],
          b.binNumber = n := by
        rcases hex with ⟨b, hb, hbn⟩
        exact ⟨b, List.mem_append_left _ hb, hbn⟩
      rw [ih _ n hex', List.countP_append]
      simp [hmn]

/-- Claim C7: for every bin number `n` listed for a view in the compile result,
after `updateTasks` the view's bin list contains a bin numbered `n`; when no
such bin pre-existed, the bin `⟨n, sort order from the sign of n⟩` is created
(negative → ascending, zero → unsorted, positive → descending); when one
pre-existed, no duplicate is added (the number of bins numbered `n` is
unchanged). -/
theorem updateTasks_bins_spec (bins : List Bin) (indices : List Int) (n : Int)
    (hn : n ∈ indices) :
    (∃ b ∈ updateViewBins bins indices, b.binNumber = n) ∧
    ((∀ b ∈ bins, b.binNumber ≠ n) →
      ({ binNumber := n, sortOrder := binSortOrderFor n } : Bin) ∈ updateViewBins bins indices) ∧
    ((∃ b ∈ bins, b.binNumber = n) →
      (updateViewBins bins indices).countP (fun b => b.binNumber == n)
        = bins.countP (fun b => b.binNumber == n)) ∧
    (n < 0 → binSortOrderFor n = SortOrder.ASCENDING) ∧
    (n = 0 → binSortOrderFor n = SortOrder.NO_SORT) ∧
    (0 < n → binSortOrderFor n = SortOrder.DESCENDING) := by
  refine ⟨exists_bin_updateViewBins indices bins n hn,
          fun hnone => created_bin_mem_updateViewBins indices bins n hnone hn,
          fun hex => countP_updateViewBins indices bins n hex, ?_, ?_, ?_⟩
  · intro h
    unfold binSortOrderFor
    rw [if_pos h]
  · intro h
    unfold binSortOrderFor
    rw [if_neg (by omega), if_pos h]
  · intro h
    unfold binSortOrderFor
    rw [if_neg (by omega), if_neg (by omega)]

/-- Witness for C7: a view holding only bin 5, compile result referencing bins
-2, 5 and 0. -/
theorem updateTasks_bins_spec_witness :
    ({ binNumber := -2, sortOrder := binSortOrderFor (-2) } : Bin)
      ∈ updateViewBins [{ binNumber := 5, sortOrder := SortOrder.DESCENDING }] [-2, 5, 0] :=
  (updateTasks_bins_spec [{ binNumber := 5, sortOrder := SortOrder.DESCENDING }]
      [-2, 5, 0] (-2) (by decide)).2.1 (by decide)

/- ===================== ViewDependentState — light packing ===================== -/

/-- A three-component vector (`vsg::vec3` / `vsg::dvec3`). -/
structure Vec3 (α : Type) where
  x : α
  y : α
  z : α
deriving DecidableEq

/-- A four-component vector (`vsg::vec4`), one record of the light data array. -/
structure Vec4 (α : Type) where
  x : α
  y : α
  z : α
  w : α
deriving DecidableEq

/-- `vsg::AmbientLight` fields read by `pack()`: `color` (float vec3) and
`intensity` (float). -/
structure AmbientLight (F : Type) where
  color : Vec3 F
  intensity : F
deriving DecidableEq

/-- `vsg::DirectionalLight` fields read by `pack()`. `F` is the float scalar
type, `D` the double scalar type of `direction`. -/
structure DirectionalLight (F D : Type) where
  color : Vec3 F
  intensity : F
  direction : Vec3 D
deriving DecidableEq

/-- `vsg::PointLight` fields read by `pack()`. -/
structure PointLight (F D : Type) where
  color : Vec3 F
  intensity : F
  position : Vec3 D
deriving DecidableEq

/-- `vsg::SpotLight` fields read by `pack()`. -/
structure SpotLight (F D : Type) where
  color : Vec3 F
  intensity : F
  position : Vec3 D
  direction : Vec3 D
  innerAngle : D
  outerAngle : D
deriving DecidableEq

/-- The scalar and geometric operations `pack()` performs, kept abstract so that
no floating-point semantics are baked in: `ofNat` is `static_cast<float>` of a
container size, `toFloat` is `static_cast<float>` of a double, `cos` the double
cosine, `normalize`/`directionTimesInverse3x3`/`transformPoint` the `dvec3`
operations `normalize(v)`, `v * inverse_3x3(mv)` and `mv * v`, and `zeroF` the
literal `0.0f`. `M` is the type of the paired view matrices (`vsg::dmat4`). -/
structure LightOps (F D M : Type) where
  ofNat : Nat → F
  toFloat : D → F
  cos : D → D
  normalize : Vec3 D → Vec3 D
  directionTimesInverse3x3 : Vec3 D → M → Vec3 D
  transformPoint : M → Vec3 D → Vec3 D
  zeroF : F

/-- The fields of `vsg::ViewDependentState` relevant to packing: the
fixed-capacity `lightData` array and the four per-frame light containers, each
entry paired with the model-view matrix active when the light was encountered
(the ambient container's matrix is never read). -/
structure ViewDependentState (F D M : Type) where
  lightData : List (Vec4 F)
  ambientLights : List (M × AmbientLight F)
  directionalLights : List (M × DirectionalLight F D)
  pointLights : List (M × PointLight F D)
  spotLights : List (M × SpotLight F D)
deriving DecidableEq

/-- `ViewDependentState::init(maxNumberLights, maxViewports)` as far as
`lightData` is concerned: `vec4Array::create(maxNumberLights)` value-initializes
`maxNumberLights` zero records; the containers start empty. The descriptor and
viewport-array setup does not touch the modelled fields. -/
def ViewDependentState.init {F D M : Type} (zero : F) (maxNumberLights : Nat) :
    ViewDependentState F D M :=
  { lightData := List.replicate maxNumberLights { x := zero, y := zero, z := zero, w := zero }
    ambientLights := []
    directionalLights := []
    pointLights := []
    spotLights := [] }

/-- `ViewDependentState::clear()`: empties the four light containers and
nothing else. -/
def ViewDependentState.clear {F D M : Type} (s : ViewDependentState F D M) :
    ViewDependentState F D M :=
  { s with ambientLights := [], directionalLights := [], pointLights := [], spotLights := [] }

/-- The single record written for one ambient light:
`(color.r, color.g, color.b, intensity)`. -/
def ambientRecords {F : Type} (light : AmbientLight F) : List (Vec4 F) :=
  [{ x := light.color.x, y := light.color.y, z := light.color.z, w := light.intensity }]

/-- The two records written for one directional light: colour+intensity, then
the normalized eye-space direction with `0.0f` in the fourth component. -/
def directionalRecords {F D M : Type} (ops : LightOps F D M) (mv : M)
    (light : DirectionalLight F D) : List (Vec4 F) :=
  let eye_direction := ops.normalize (ops.directionTimesInverse3x3 light.direction mv)
  [{ x := light.color.x, y := light.color.y, z := light.color.z, w := light.intensity },
   { x := ops.toFloat eye_direction.x, y := ops.toFloat eye_direction.y
     z := ops.toFloat eye_direction.z, w := ops.zeroF }]

/-- The two records written for one point light: colour+intensity, then the
eye-space position with `0.0f` in the fourth component. -/
def pointRecords {F D M : Type} (ops : LightOps F D M) (mv : M)
    (light : PointLight F D) : List (Vec4 F) :=
  let eye_position := ops.transformPoint mv light.position
  [{ x := light.color.x, y := light.color.y, z := light.color.z, w := light.intensity },
   { x := ops.toFloat eye_position.x, y := ops.toFloat eye_position.y
     z := ops.toFloat eye_position.z, w := ops.zeroF }]

/-- The three records written for one spot light: colour+intensity, eye-space
position with `cos(innerAngle)`, eye-space direction with `cos(outerAngle)`. -/
def spotRecords {F D M : Type} (ops : LightOps F D M) (mv : M)
    (light : SpotLight F D) : List (Vec4 F) :=
  let eye_position := ops.transformPoint mv light.position
  let eye_direction := ops.normalize (ops.directionTimesInverse3x3 light.direction mv)
  let cos_innerAngle := ops.toFloat (ops.cos light.innerAngle)
  let cos_outerAngle := ops.toFloat (ops.cos light.outerAngle)
  [{ x := light.color.x, y := light.color.y, z := light.color.z, w := light.intensity },
   { x := ops.toFloat eye_position.x, y := ops.toFloat eye_position.y
     z := ops.toFloat eye_position.z, w := cos_innerAngle },
   { x := ops.toFloat eye_direction.x, y := ops.toFloat eye_direction.y
     z := ops.toFloat eye_direction.z, w := cos_outerAngle }]

/-- The very first record `pack()` writes: the four category counts, each cast
to float. -/
def countsRecord {F D M : Type} (ops : LightOps F D M) (s : ViewDependentState F D M) :
    Vec4 F :=
  { x := ops.ofNat s.ambientLights.length
    y := ops.ofNat s.directionalLights.length
    z := ops.ofNat s.pointLights.length
    w := ops.ofNat s.spotLights.length }

/-- The full sequence of records `ViewDependentState::pack()` writes through
`light_itr`, in source order: counts record, then ambient, directional, point
and spot records. -/
def packRecords {F D M : Type} (ops : LightOps F D M) (s : ViewDependentState F D M) :
    List (Vec4 F) :=
  countsRecord ops s ::
    (s.ambientLights.flatMap (fun entry => ambientRecords entry.2) ++
     s.directionalLights.flatMap (fun entry => directionalRecords ops entry.1 entry.2) ++
     s.pointLights.flatMap (fun entry => pointRecords ops entry.1 entry.2) ++
     s.spotLights.flatMap (fun entry => spotRecords ops entry.1 entry.2))

/-- Sequential writes through the incrementing iterator `light_itr`: record
number `j` of the list goes to array slot `i + j`. -/
def writeRecordsFrom {F : Type} (data : List (Vec4 F)) (i : Nat) :
    List (Vec4 F) → List (Vec4 F)
  | [] => data
  | r :: rs => writeRecordsFrom (data.set i r) (i + 1) rs

/-- `ViewDependentState::pack()`: writes `packRecords` into `lightData`
starting at slot 0 and leaves every other field unchanged (`lightData->dirty()`
only flags the array for transfer). -/
def ViewDependentState.pack {F D M : Type} (ops : LightOps F D M)
    (s : ViewDependentState F D M) : ViewDependentState F D M :=
  { s with lightData := writeRecordsFrom s.lightData 0 (packRecords ops s) }

lemma length_flatMap_const {α β : Type} (l : List α) (f : α → List β) (c : Nat)
    (h : ∀ a, (f a).length = c) : (l.flatMap f).length = c * l.length := by
  induction l with
  | nil => simp
  | cons a t ih =>
    rw [List.flatMap_cons, List.length_append, h a, ih, List.length_cons, Nat.mul_succ]
    omega

/-- The record count of `pack()`: `1 + a + 2d + 2p + 3s`. -/
lemma packRecords_length {F D M : Type} (ops : LightOps F D M)
    (s : ViewDependentState F D M) :
    (packRecords ops s).length =
      1 + s.ambientLights.length + 2 * s.directionalLights.length +
        2 * s.pointLights.length + 3 * s.spotLights.length := by
  have h1 := length_flatMap_const s.ambientLights (fun entry => ambientRecords entry.2) 1
    (fun _ => rfl)
  have h2 := length_flatMap_const s.directionalLights
    (fun entry => directionalRecords ops entry.1 entry.2) 2 (fun _ => rfl)
  have h3 := length_flatMap_const s.pointLights
    (fun entry => pointRecords ops entry.1 entry.2) 2 (fun _ => rfl)
  have h4 := length_flatMap_const s.spotLights
    (fun entry => spotRecords ops entry.1 entry.2) 3 (fun _ => rfl)
  unfold packRecords
  rw [List.length_cons, List.length_append, List.length_append, List.length_append,
      h1, h2, h3, h4]
  ring

/-- Claim C2: `pack()` writes exactly `1 + a + 2d + 2p + 3s` four-component
records into the light data array for `a` ambient, `d` directional, `p` point
and `s` spot lights, and record 0 holds the four category counts. -/
theorem pack_record_count_law {F D M : Type} (ops : LightOps F D M)
    (s : ViewDependentState F D M) :
    (packRecords ops s).length =
      1 + s.ambientLights.length + 2 * s.directionalLights.length +
        2 * s.pointLights.length + 3 * s.spotLights.length ∧
    (packRecords ops s).head? =
      some { x := ops.ofNat s.ambientLights.length
             y := ops.ofNat s.directionalLights.length
             z := ops.ofNat s.pointLights.length
             w := ops.ofNat s.spotLights.length } ∧
    (ViewDependentState.pack ops s).lightData
      = writeRecordsFrom s.lightData 0 (packRecords ops s) :=
  ⟨packRecords_length ops s, rfl, rfl⟩

/- ===================== C5: clear() then pack() ===================== -/

lemma set_zero_getElem_zero {α : Type} (l : List α) (a : α) (h : 0 < l.length) :
    (l.set 0 a)[0]? = some a := by
  cases l with
  | nil => simp at h
  | cons x xs => simp

lemma set_zero_getElem_other {α : Type} (l : List α) (a : α) (j : Nat) (hj : j ≠ 0) :
    (l.set 0 a)[j]? = l[j]? := by
  cases l with
  | nil => rfl
  | cons x xs =>
    cases j with
    | zero => exact absurd rfl hj
    | succ j => simp

lemma packRecords_clear {F D M : Type} (ops : LightOps F D M)
    (s : ViewDependentState F D M) :
    packRecords ops (s.clear)
      = [{ x := ops.ofNat 0, y := ops.ofNat 0, z := ops.ofNat 0, w := ops.ofNat 0 }] := by
  rfl

/-- Claim C5: after `clear()`, `pack()` with zero lights in all four categories
writes exactly one record — the counts record with all four counts 0 (each
written as `static_cast<float>(0)`) — at slot 0, and leaves every other slot of
the light data array unchanged. -/
theorem clear_pack_writes_single_counts_record {F D M : Type} (ops : LightOps F D M)
    (s : ViewDependentState F D M) (h : 0 < s.lightData.length) :
    packRecords ops (s.clear)
      = [{ x := ops.ofNat 0, y := ops.ofNat 0, z := ops.ofNat 0, w := ops.ofNat 0 }] ∧
    (ViewDependentState.pack ops (s.clear)).lightData[0]?
      = some { x := ops.ofNat 0, y := ops.ofNat 0, z := ops.ofNat 0, w := ops.ofNat 0 } ∧
    ∀ j, j ≠ 0 → (ViewDependentState.pack ops (s.clear)).lightData[j]? = s.lightData[j]? := by
  have hdata : (ViewDependentState.pack ops (s.clear)).lightData
      = s.lightData.set 0 { x := ops.ofNat 0, y := ops.ofNat 0, z := ops.ofNat 0, w := ops.ofNat 0 } := by
    show writeRecordsFrom (s.clear).lightData 0 (packRecords ops (s.clear)) = _
    rw [packRecords_clear]
    rfl
  refine ⟨packRecords_clear ops s, ?_, ?_⟩
  · rw [hdata]
    exact set_zero_getElem_zero s.lightData _ h
  · intro j hj
    rw [hdata]
    exact set_zero_getElem_other s.lightData _ j hj

/- ===================== Concrete instantiation for witnesses ===================== -/

/-- A concrete, fully computable instantiation of the abstract scalar
operations over `Int`, used to evaluate the packing theorems on explicit
inputs. -/
def intOps : LightOps Int Int Int :=
  { ofNat := fun n => Int.ofNat n
    toFloat := fun d => d
    cos := fun d => d
    normalize := fun v => v
    directionTimesInverse3x3 := fun v _ => v
    transformPoint := fun _ v => v
    zeroF := 0 }

/-- A concrete state: capacity-4 light data array with recognisable prior
contents and one ambient plus one directional light. -/
def sampleState : ViewDependentState Int Int Int :=
  { lightData :=
      [{ x := 7, y := 7, z := 7, w := 7 }, { x := 8, y := 8, z := 8, w := 8 },
       { x := 9, y := 9, z := 9, w := 9 }, { x := 10, y := 10, z := 10, w := 10 }]
    ambientLights :=
      [(1, { color := { x := 1, y := 0, z := 0 }, intensity := 2 })]
    directionalLights :=
      [(1, { color := { x := 0, y := 1, z := 0 }, intensity := 3
             direction := { x := 0, y := 0, z := -1 } })]
    pointLights := []
    spotLights := [] }

/-- Witness for C5 on `sampleState`: the cleared pack writes only the zero
counts record and slot 1 keeps its prior contents. -/
theorem clear_pack_writes_single_counts_record_witness :
    packRecords intOps (sampleState.clear)
      = [{ x := intOps.ofNat 0, y := intOps.ofNat 0, z := intOps.ofNat 0, w := intOps.ofNat 0 }] ∧
    (ViewDependentState.pack intOps (sampleState.clear)).lightData[1]?
      = some { x := 8, y := 8, z := 8, w := 8 } :=
  ⟨(clear_pack_writes_single_counts_record intOps sampleState (by decide)).1,
   (clear_pack_writes_single_counts_record intOps sampleState (by decide)).2.2 1 (by decide)⟩

/- ===================== C8: pack() determinism ===================== -/

/-- Claim C8: `pack()` is deterministic — for fixed contents of the four light
containers and their paired transforms, the sequence of records written is
identical, and from identical prior light data arrays the resulting arrays are
identical. -/
theorem pack_deterministic {F D M : Type} (ops : LightOps F D M)
    (s1 s2 : ViewDependentState F D M)
    (ha : s1.ambientLights = s2.ambientLights)
    (hd : s1.directionalLights = s2.directionalLights)
    (hp : s1.pointLights = s2.pointLights)
    (hs : s1.spotLights = s2.spotLights) :
    packRecords ops s1 = packRecords ops s2 ∧
    (s1.lightData = s2.lightData →
      (ViewDependentState.pack ops s1).lightData = (ViewDependentState.pack ops s2).lightData) := by
  have h1 : packRecords ops s1 = packRecords ops s2 := by
    unfold packRecords countsRecord
    rw [ha, hd, hp, hs]
  refine ⟨h1, fun hl => ?_⟩
  show writeRecordsFrom s1.lightData 0 (packRecords ops s1)
    = writeRecordsFrom s2.lightData 0 (packRecords ops s2)
  rw [hl, h1]

/-- A second concrete state: same lights as `sampleState`, different prior
array contents. -/
def sampleState2 : ViewDependentState Int Int Int :=
  { lightData :=
      [{ x := 0, y := 0, z := 0, w := 0 }, { x := 0, y := 0, z := 0, w := 0 },
       { x := 0, y := 0, z := 0, w := 0 }, { x := 0, y := 0, z := 0, w := 0 }]
    ambientLights := sampleState.ambientLights
    directionalLights := sampleState.directionalLights
    pointLights := []
    spotLights := [] }

/-- Witness for C8: two states with identical light containers but different
prior array contents produce the same record sequence. -/
theorem pack_deterministic_witness :
    packRecords intOps sampleState = packRecords intOps sampleState2 :=
  (pack_deterministic intOps sampleState sampleState2 rfl rfl rfl rfl).1

/- ===================== C9: in-bounds condition for pack() ===================== -/

/-- Claim C9: `pack()` writes its records through an unchecked iterator at
slots `0, 1, …` of the light data array created with `maxNumberLights`
entries, so every write lands in bounds if and only if
`1 + a + 2d + 2p + 3s ≤ maxNumberLights`; `init` indeed creates the array with
exactly `maxNumberLights` records, and nothing checks the precondition. -/
theorem pack_in_bounds_iff {F D M : Type} (ops : LightOps F D M)
    (s : ViewDependentState F D M) (maxNumberLights : Nat) (z : F)
    (h : s.lightData.length = maxNumberLights) :
    ((∀ i, i < (packRecords ops s).length → i < s.lightData.length) ↔
      1 + s.ambientLights.length + 2 * s.directionalLights.length +
        2 * s.pointLights.length + 3 * s.spotLights.length ≤ maxNumberLights) ∧
    (ViewDependentState.init z maxNumberLights : ViewDependentState F D M).lightData.length
      = maxNumberLights := by
  constructor
  · rw [h, ← packRecords_length ops s]
    constructor
    · intro hall
      have hpos : 0 < (packRecords ops s).length := by
        rw [packRecords_length]
        omega
      have hlast := hall ((packRecords ops s).length - 1) (by omega)
      omega
    · intro hle i hi
      omega
  · simp [ViewDependentState.init]

/-- Witness for C9 on `sampleState` (record count `1 + 1 + 2·1 = 4`, capacity 4). -/
theorem pack_in_bounds_iff_witness :
    (ViewDependentState.init (0 : Int) 4 : ViewDependentState Int Int Int).lightData.length = 4 :=
  (pack_in_bounds_iff intOps sampleState 4 0 (by decide)).2
